import Mathlib

/-!
Verification of the error-handling and logging shell of the `py.template`
HTTP service (`server.py`, `src/config/app.py`, `src/utils/logger.py`).

The Python sources are shallowly embedded: every handler, middleware and
configuration computation becomes an executable Lean function over explicit
request/response/log data, and the spec's testable properties are proved
about those functions.
-/

/-- A JSON value, as produced by the service's JSON responses. -/
inductive Json where
  | str (s : String)
  | num (n : Int)
  | arr (xs : List Json)
  | obj (fields : List (String × Json))

/-- A single log emission: a severity name and a message string.
In the embedding a handler returns the ordered list of its log emissions
together with its response, so every entry in the list is emitted before
the response is produced. -/
structure LogEntry where
  level : String
  message : String
  deriving DecidableEq, Repr

/-- The parts of an HTTP request the embedded code inspects: method,
URL path, and the Origin header when present. -/
structure Request where
  method : String
  path : String
  origin : Option String
  deriving DecidableEq, Repr

/-- A response body: JSON (from `JSONResponse`) or plain text (from
`Response(content=...)`). -/
inductive RespBody where
  | json (j : Json)
  | text (s : String)

/-- An HTTP response: status code, body, and response headers as an
ordered association list. -/
structure HResponse where
  status : Nat
  body : RespBody
  headers : List (String × String)

/-- A structured field-error record as produced by the request validator
(`exc.errors()`): a location path, a message, and an error type tag. -/
structure FieldError where
  loc : List String
  msg : String
  type : String
  deriving DecidableEq, Repr

/-- JSON rendering of one validator field-error record. -/
def FieldError.toJson (e : FieldError) : Json :=
  .obj [("loc", .arr (e.loc.map .str)), ("msg", .str e.msg), ("type", .str e.type)]

/-- Textual rendering of a list of field-error records, standing in for the
string interpolation of `exc.errors()` into the log message. -/
def renderFieldErrors (es : List FieldError) : String :=
  "[" ++ String.intercalate ", " (es.map (fun e =>
    "loc=" ++ String.intercalate "." e.loc ++ " msg=" ++ e.msg ++ " type=" ++ e.type)) ++ "]"

/-- Embedding of `http_exception_handler` (server.py, lines 69-78): logs the
status code with detail, the request path and the request method at error
level, then returns a JSON response with the declared status code and body
`detail: D`. -/
def http_exception_handler (req : Request) (statusCode : Nat) (detail : String) :
    List LogEntry × HResponse :=
  ([⟨"ERROR", "HTTP " ++ toString statusCode ++ " error: " ++ detail⟩,
    ⟨"ERROR", "Request path: " ++ req.path⟩,
    ⟨"ERROR", "Request method: " ++ req.method⟩],
   { status := statusCode,
     body := .json (.obj [("detail", .str detail)]),
     headers := [] })

/-- Embedding of `validation_exception_handler` (server.py, lines 81-90):
logs the request path, the structured field errors and the raw request body
at error level, then returns status 422 with body `detail: exc.errors()`. -/
def validation_exception_handler (req : Request) (errors : List FieldError)
    (rawBody : String) : List LogEntry × HResponse :=
  ([⟨"ERROR", "Validation error on " ++ req.path⟩,
    ⟨"ERROR", "Validation errors: " ++ renderFieldErrors errors⟩,
    ⟨"ERROR", "Request body: " ++ rawBody⟩],
   { status := 422,
     body := .json (.obj [("detail", .arr (errors.map FieldError.toJson))]),
     headers := [] })

/-- Embedding of `general_exception_handler` (server.py, lines 93-109):
logs the method and path, the exception class name, the exception message
and the full traceback at error level, then returns status 500 with the
fixed internal-error envelope carrying the class name and message. -/
def general_exception_handler (req : Request) (typeName message tb : String) :
    List LogEntry × HResponse :=
  ([⟨"ERROR", "Unhandled exception in " ++ req.method ++ " " ++ req.path⟩,
    ⟨"ERROR", "Exception type: " ++ typeName⟩,
    ⟨"ERROR", "Exception message: " ++ message⟩,
    ⟨"ERROR", "Full traceback:\n" ++ tb⟩],
   { status := 500,
     body := .json (.obj [("detail", .str "Internal server error"),
                          ("error_type", .str typeName),
                          ("error_message", .str message)]),
     headers := [] })

/-- The failure kinds the application registers handlers for: a declared
`StarletteHTTPException`, a `RequestValidationError`, or any other uncaught
exception (class name, message, formatted traceback). -/
inductive Exc where
  | httpExc (statusCode : Nat) (detail : String)
  | validationExc (errors : List FieldError) (rawBody : String)
  | other (typeName : String) (message : String) (tb : String)
  deriving DecidableEq, Repr

/-- Dispatch of an escaped exception to the registered handlers, mirroring
the framework's most-specific-handler-wins registration in server.py:
declared HTTP exceptions and validation errors go to their dedicated
handlers, everything else to the catch-all `Exception` handler. -/
def handleException (req : Request) : Exc → List LogEntry × HResponse
  | .httpExc s d => http_exception_handler req s d
  | .validationExc errs b => validation_exception_handler req errs b
  | .other t m tb => general_exception_handler req t m tb

/-- Two string concatenations with nonempty prefixes that start with
different characters are distinct strings. -/
theorem append_ne_of_head_ne (p q s t : String)
    (hp : p.data.head?.isSome) (hq : q.data.head?.isSome)
    (hne : p.data.head? ≠ q.data.head?) : p ++ s ≠ q ++ t := by
  intro he
  apply hne
  have hd : p.data ++ s.data = q.data ++ t.data := by
    have h2 := congrArg String.data he
    cases p with
    | mk pd => cases q with
      | mk qd => cases s with
        | mk sd => cases t with
          | mk td => simpa [String.instAppend, String.append] using h2
  cases hpd : p.data with
  | nil => rw [hpd] at hp; simp at hp
  | cons a as =>
    cases hqd : q.data with
    | nil => rw [hqd] at hq; simp at hq
    | cons b bs =>
      rw [hpd, hqd] at hd
      simp only [List.cons_append, List.cons.injEq] at hd
      simp [hpd, hqd, hd.1]

/-- Claim C1. For every uncaught exception with class name C and message M
(neither a declared HTTP exception nor a validation error), the response
status is 500, the body is exactly the JSON object with detail
"Internal server error", error_type C and error_message M, and the full
stack trace occurs in exactly one log entry, all of which are emitted
before the response is produced. -/
theorem c1_unhandled_exception_envelope (req : Request) (C M tb : String) :
    (handleException req (.other C M tb)).2.status = 500 ∧
    (handleException req (.other C M tb)).2.body =
      .json (.obj [("detail", .str "Internal server error"),
                   ("error_type", .str C),
                   ("error_message", .str M)]) ∧
    ((handleException req (.other C M tb)).1.filter
      (fun e => e.message = "Full traceback:\n" ++ tb)).length = 1 := by
  refine ⟨rfl, rfl, ?_⟩
  have h1 : "Unhandled exception in " ++ req.method ++ " " ++ req.path ≠
      "Full traceback:\n" ++ tb := by
    have := append_ne_of_head_ne "Unhandled exception in " "Full traceback:\n"
      (req.method ++ " " ++ req.path) tb (by decide) (by decide) (by decide)
    simpa [String.append_assoc] using this
  have h2 : "Exception type: " ++ C ≠ "Full traceback:\n" ++ tb :=
    append_ne_of_head_ne "Exception type: " "Full traceback:\n" C tb
      (by decide) (by decide) (by decide)
  have h3 : "Exception message: " ++ M ≠ "Full traceback:\n" ++ tb :=
    append_ne_of_head_ne "Exception message: " "Full traceback:\n" M tb
      (by decide) (by decide) (by decide)
  simp [handleException, general_exception_handler, List.filter, h1, h2, h3]

/-- Claim C2. For every declared HTTP failure with status code S and detail
D, the response status equals S, the body is exactly the JSON object with
detail D, and error-level log entries are produced containing S with D, the
request path, and the request method. -/
theorem c2_declared_http_failure (req : Request) (S : Nat) (D : String) :
    (handleException req (.httpExc S D)).2.status = S ∧
    (handleException req (.httpExc S D)).2.body = .json (.obj [("detail", .str D)]) ∧
    ⟨"ERROR", "HTTP " ++ toString S ++ " error: " ++ D⟩ ∈
      (handleException req (.httpExc S D)).1 ∧
    ⟨"ERROR", "Request path: " ++ req.path⟩ ∈ (handleException req (.httpExc S D)).1 ∧
    ⟨"ERROR", "Request method: " ++ req.method⟩ ∈ (handleException req (.httpExc S D)).1 := by
  refine ⟨rfl, rfl, ?_, ?_, ?_⟩ <;>
    simp [handleException, http_exception_handler]

/-- Claim C3. For every request-validation failure, the response status is
422, the body's detail field is the ordered sequence of field-error records
produced by the validator, and the request path, the field-error list and
the raw request body are all logged. -/
theorem c3_validation_failure (req : Request) (errors : List FieldError)
    (rawBody : String) :
    (handleException req (.validationExc errors rawBody)).2.status = 422 ∧
    (handleException req (.validationExc errors rawBody)).2.body =
      .json (.obj [("detail", .arr (errors.map FieldError.toJson))]) ∧
    ⟨"ERROR", "Validation error on " ++ req.path⟩ ∈
      (handleException req (.validationExc errors rawBody)).1 ∧
    ⟨"ERROR", "Validation errors: " ++ renderFieldErrors errors⟩ ∈
      (handleException req (.validationExc errors rawBody)).1 ∧
    ⟨"ERROR", "Request body: " ++ rawBody⟩ ∈
      (handleException req (.validationExc errors rawBody)).1 := by
  refine ⟨rfl, rfl, ?_, ?_, ?_⟩ <;>
    simp [handleException, validation_exception_handler]

/-- Python `str.strip()`: remove leading and trailing whitespace. -/
def pyStrip (s : String) : String :=
  ⟨((s.data.dropWhile Char.isWhitespace).reverse.dropWhile Char.isWhitespace).reverse⟩

/-- Python `str.rstrip("/")`: remove every trailing slash. -/
def pyRstripSlash (s : String) : String :=
  ⟨(s.data.reverse.dropWhile (fun c => c = '/')).reverse⟩

/-- Split a character list at every comma, keeping empty fields, as Python
`str.split(",")` does. -/
def splitCommaChars : List Char → List (List Char)
  | [] => [[]]
  | c :: rest =>
    match splitCommaChars rest with
    | [] => [[c]]
    | g :: gs => if c = ',' then [] :: g :: gs else (c :: g) :: gs

/-- Python `s.split(",")`. -/
def pySplitComma (s : String) : List String :=
  (splitCommaChars s.data).map (fun l => ⟨l⟩)

/-- Embedding of `ALLOWED_ORIGINS` (src/config/app.py, line 28): split the
raw comma-separated configuration value, keep the entries that are nonempty
after stripping whitespace, and normalize each by stripping whitespace and
trailing slashes. -/
def ALLOWED_ORIGINS (raw : String) : List String :=
  ((pySplitComma raw).filter (fun o => !(pyStrip o == ""))).map
    (fun o => pyRstripSlash (pyStrip o))

/-- The CORS configuration fields the embedded middleware path uses. -/
structure CORSPolicy where
  allowOrigins : List String
  allowCredentials : Bool
  exposeHeaders : List String

/-- Origin admission test of the CORS middleware for an explicit origin
list: exact string membership. -/
def is_allowed_origin (p : CORSPolicy) (origin : String) : Bool :=
  p.allowOrigins.contains origin

/-- The headers the CORS middleware attaches to every response of a
cross-origin request: the credentials flag and the exposed headers. -/
def corsSimpleHeaders (p : CORSPolicy) : List (String × String) :=
  (if p.allowCredentials then [("access-control-allow-credentials", "true")] else []) ++
  (if p.exposeHeaders.isEmpty then []
   else [("access-control-expose-headers", String.intercalate ", " p.exposeHeaders)])

/-- Embedding of the CORS middleware stage for the requests the claims
quantify over: requests without an Origin header pass through untouched;
for a request carrying an Origin header the downstream response gets the
simple CORS headers, plus an `access-control-allow-origin` echo of the
origin (and a Vary marker) exactly when the origin is in the allow list.
(The dedicated preflight branch, taken only for OPTIONS requests carrying
an access-control-request-method header, is outside the modelled paths.) -/
def corsDispatch (p : CORSPolicy) (req : Request)
    (call_next : Request → HResponse) : HResponse :=
  match req.origin with
  | none => call_next req
  | some o =>
    let resp := call_next req
    let resp1 : HResponse := { resp with headers := resp.headers ++ corsSimpleHeaders p }
    if is_allowed_origin p o then
      { resp1 with headers :=
          resp1.headers ++ [("access-control-allow-origin", o), ("vary", "Origin")] }
    else resp1

namespace HTTP2PRIMiddleware

/-- Embedding of `HTTP2PRIMiddleware.dispatch` (server.py, lines 112-119):
a request with method PRI and path `*` is answered immediately with status
400 and plain-text body `Bad Request`; every other request is passed to the
next stage. -/
def dispatch (req : Request) (call_next : Request → HResponse) : HResponse :=
  if req.method = "PRI" ∧ req.path = "*" then
    { status := 400, body := .text "Bad Request", headers := [] }
  else call_next req

end HTTP2PRIMiddleware

/-- The CORS policy server.py constructs from the raw origins setting:
the normalized allow list, credentials allowed, and the exposed headers
Content-Length and Content-Range. -/
def appCorsPolicy (raw : String) : CORSPolicy :=
  ⟨ALLOWED_ORIGINS raw, true, ["Content-Length", "Content-Range"]⟩

/-- The application's middleware stack around the route handlers.
server.py registers `HTTP2PRIMiddleware` first and `CORSMiddleware` second;
`add_middleware` inserts each new middleware at the head (outermost
position) of the stack, so the CORS stage is outermost and runs before the
PRI admission filter, which in turn wraps the route handlers. -/
def appPipeline (p : CORSPolicy) (router : Request → HResponse) (req : Request) :
    HResponse :=
  corsDispatch p req (fun r => HTTP2PRIMiddleware.dispatch r router)

/-- List lookup skips a prefix in which the key does not occur. -/
theorem lookup_append_of_none {α β : Type} [BEq α] (a : α) (l1 l2 : List (α × β))
    (h : l1.lookup a = none) : (l1 ++ l2).lookup a = l2.lookup a := by
  induction l1 with
  | nil => rfl
  | cons x xs ih =>
    obtain ⟨k, v⟩ := x
    simp only [List.cons_append, List.lookup] at h ⊢
    cases hx : (a == k) with
    | true => simp only [hx] at h; exact absurd h (by simp)
    | false => simp only [hx] at h ⊢; exact ih h

/-- Claim C4, counterexample. A `PRI *` request carrying an allowed Origin
header: the 400 response comes back with an `access-control-allow-origin`
header attached, so the CORS stage is not bypassed and CORS headers are
computed for this request — the CORS middleware is outermost and wraps the
admission filter, contrary to the claim. -/
theorem c4_pri_counterexample :
    (appPipeline (appCorsPolicy "http://localhost:4321")
      (fun _ => ⟨200, .text "ok", []⟩)
      ⟨"PRI", "*", some "http://localhost:4321"⟩).headers.lookup
        "access-control-allow-origin" = some "http://localhost:4321" := by
  decide

/-- Claim C4, amended. For every request with method PRI and target path
`*`, under any configured CORS policy, the admission filter responds with
status 400 and the fixed plain-text body `Bad Request` without invoking any
route handler; however the CORS stage is outermost in the stack, so it runs
before the admission filter and may attach CORS headers to the 400
response. Every other request passes through the admission filter to the
next stage. -/
theorem c4_pri_amended (p : CORSPolicy) (router : Request → HResponse)
    (req : Request) (h1 : req.method = "PRI") (h2 : req.path = "*") :
    (appPipeline p router req).status = 400 ∧
    (appPipeline p router req).body = .text "Bad Request" ∧
    (∀ router2 : Request → HResponse,
      appPipeline p router2 req = appPipeline p router req) ∧
    (∀ (r : Request) (cn : Request → HResponse),
      ¬(r.method = "PRI" ∧ r.path = "*") → HTTP2PRIMiddleware.dispatch r cn = cn r) := by
  refine ⟨?_, ?_, ?_, ?_⟩
  · unfold appPipeline corsDispatch HTTP2PRIMiddleware.dispatch
    rcases req with ⟨m, pa, o⟩
    simp only at h1 h2
    subst h1 h2
    cases o with
    | none => simp
    | some x => simp; split <;> rfl
  · unfold appPipeline corsDispatch HTTP2PRIMiddleware.dispatch
    rcases req with ⟨m, pa, o⟩
    simp only at h1 h2
    subst h1 h2
    cases o with
    | none => simp
    | some x => simp; split <;> rfl
  · intro router2
    unfold appPipeline corsDispatch HTTP2PRIMiddleware.dispatch
    rcases req with ⟨m, pa, o⟩
    simp only at h1 h2
    subst h1 h2
    cases o <;> simp
  · intro r cn hno
    unfold HTTP2PRIMiddleware.dispatch
    simp [hno]

/-- Witness for the amended C4 at concrete inputs: a PRI `*` request gets
status 400, and a GET request passes the admission filter through to the
next stage. -/
theorem c4_pri_amended_witness :
    (appPipeline (appCorsPolicy "http://localhost:4321")
      (fun _ => ⟨200, .text "ok", []⟩) ⟨"PRI", "*", none⟩).status = 400 ∧
    HTTP2PRIMiddleware.dispatch ⟨"GET", "/", none⟩
      (fun _ => ⟨200, .text "ok", []⟩) =
      (fun (_ : Request) => (⟨200, .text "ok", []⟩ : HResponse)) ⟨"GET", "/", none⟩ :=
  ⟨(c4_pri_amended (appCorsPolicy "http://localhost:4321")
      (fun _ => ⟨200, .text "ok", []⟩) ⟨"PRI", "*", none⟩ rfl rfl).1,
   (c4_pri_amended (appCorsPolicy "http://localhost:4321")
      (fun _ => ⟨200, .text "ok", []⟩) ⟨"PRI", "*", none⟩ rfl rfl).2.2.2
      ⟨"GET", "/", none⟩ (fun _ => ⟨200, .text "ok", []⟩) (by simp)⟩

/-- Claim C8. For every request whose Origin header is in the configured
allow list (exact membership in the load-time-normalized list), the
response carries an `access-control-allow-origin` header equal to that
origin; for every request whose Origin is not in the list the header is
absent, and in both cases the response status is the one the downstream
stage produced — the CORS stage itself raises no error. The downstream
response is assumed not to carry its own `access-control-allow-origin`
header. -/
theorem c8_cors_allow_origin (raw : String) (router : Request → HResponse)
    (req : Request) (o : String) (ho : req.origin = some o)
    (hin : (HTTP2PRIMiddleware.dispatch req router).headers.lookup
      "access-control-allow-origin" = none) :
    ((ALLOWED_ORIGINS raw).contains o = true →
      (appPipeline (appCorsPolicy raw) router req).headers.lookup
        "access-control-allow-origin" = some o) ∧
    ((ALLOWED_ORIGINS raw).contains o = false →
      (appPipeline (appCorsPolicy raw) router req).headers.lookup
        "access-control-allow-origin" = none) ∧
    (appPipeline (appCorsPolicy raw) router req).status =
      (HTTP2PRIMiddleware.dispatch req router).status := by
  have hsh : corsSimpleHeaders (appCorsPolicy raw) =
      [("access-control-allow-credentials", "true"),
       ("access-control-expose-headers", "Content-Length, Content-Range")] := rfl
  refine ⟨?_, ?_, ?_⟩
  · intro hc
    unfold appPipeline corsDispatch
    rw [ho]
    simp only [is_allowed_origin, appCorsPolicy] at hc ⊢
    simp only [hc, if_true]
    rw [List.append_assoc, lookup_append_of_none _ _ _ hin]
    rw [show corsSimpleHeaders ⟨ALLOWED_ORIGINS raw, true,
      ["Content-Length", "Content-Range"]⟩ =
      [("access-control-allow-credentials", "true"),
       ("access-control-expose-headers", "Content-Length, Content-Range")] from rfl]
    simp [List.lookup]
  · intro hc
    unfold appPipeline corsDispatch
    rw [ho]
    simp only [is_allowed_origin, appCorsPolicy] at hc ⊢
    simp only [hc, Bool.false_eq_true, if_false]
    rw [lookup_append_of_none _ _ _ hin]
    rw [show corsSimpleHeaders ⟨ALLOWED_ORIGINS raw, true,
      ["Content-Length", "Content-Range"]⟩ =
      [("access-control-allow-credentials", "true"),
       ("access-control-expose-headers", "Content-Length, Content-Range")] from rfl]
    decide
  · unfold appPipeline corsDispatch
    rw [ho]
    simp only
    split <;> rfl

/-- Witness for C8 at concrete inputs: the configured raw origin carries a
trailing slash that is stripped at load time, and a request from the
normalized origin gets the matching allow-origin header back. -/
theorem c8_cors_allow_origin_witness :
    (appPipeline (appCorsPolicy "http://localhost:4321/")
      (fun _ => ⟨200, .text "ok", []⟩)
      ⟨"GET", "/", some "http://localhost:4321"⟩).headers.lookup
        "access-control-allow-origin" = some "http://localhost:4321" :=
  (c8_cors_allow_origin "http://localhost:4321/"
    (fun _ => ⟨200, .text "ok", []⟩) ⟨"GET", "/", some "http://localhost:4321"⟩
    "http://localhost:4321" rfl (by decide)).1 (by decide)

/-- The load-time normalization of the configured origins, on a concrete
configuration string: entries are split on commas, whitespace-trimmed,
empty entries are dropped, and trailing slashes are removed. -/
theorem allowed_origins_normalization :
    ALLOWED_ORIGINS " http://localhost:4321/ ,, https://xemtarrot.vn" =
      ["http://localhost:4321", "https://xemtarrot.vn"] := by
  decide

/-- A loguru log record as seen by the formatter: the record's own name,
the bound extra name when present, the level name, the formatted timestamp,
and the source function, line and message. -/
structure LoguruRecord where
  name : String
  extraName : Option String
  level : String
  time : String
  function : String
  line : Nat
  message : String
  deriving DecidableEq, Repr

/-- One placeholder or literal piece of a loguru format template. -/
inductive TemplatePart where
  | lit (s : String)
  | time
  | level8
  | function
  | line
  | message
  deriving DecidableEq, Repr

/-- Embedding of `format_record` (src/utils/logger.py, lines 13-26): build
the loguru format template for one record, interpolating the logger name
(the bound extra name when present, else the record's own name) into the
template text; the remaining fields stay as loguru placeholders. -/
def format_record (record : LoguruRecord) : List TemplatePart :=
  let logger_name := record.extraName.getD record.name
  [.time, .lit " | ", .level8, .lit (" | " ++ logger_name ++ ":"), .function,
   .lit ":", .line, .lit " - ", .message, .lit "\n"]

/-- Loguru's rendering of one template piece against a record; the level
placeholder carries the format spec `: <8`, left-aligning the level name in
a field of width 8 padded with spaces. -/
def renderPart (r : LoguruRecord) : TemplatePart → String
  | .lit s => s
  | .time => r.time
  | .level8 => r.level ++ String.mk (List.replicate (8 - r.level.length) ' ')
  | .function => r.function
  | .line => toString r.line
  | .message => r.message

/-- The full log line loguru emits for a record under `format_record`. -/
def renderLine (r : LoguruRecord) : String :=
  (format_record r).foldr (fun p acc => renderPart r p ++ acc) ""

/-- Claim C5. Every log line emitted through the configured formatter has
the shape `timestamp | level (padded to 8 characters) |
logger_name:function:line - message`; in particular a record with level
INFO, bound name test, function f, line 10 and message hello renders as
`timestamp | INFO     | test:f:10 - hello`. -/
theorem c5_log_format (r : LoguruRecord) :
    renderLine r =
      r.time ++ (" | " ++
        ((r.level ++ String.mk (List.replicate (8 - r.level.length) ' ')) ++ (" | " ++
          ((r.extraName.getD r.name) ++ (":" ++ (r.function ++ (":" ++
            (toString r.line ++ (" - " ++ (r.message ++ "\n")))))))))) ∧
    (r.level = "INFO" → r.extraName = some "test" → r.function = "f" →
      r.line = 10 → r.message = "hello" →
      renderLine r = r.time ++ " | INFO     | test:f:10 - hello\n") := by
  have hmain : renderLine r =
      r.time ++ (" | " ++
        ((r.level ++ String.mk (List.replicate (8 - r.level.length) ' ')) ++ (" | " ++
          ((r.extraName.getD r.name) ++ (":" ++ (r.function ++ (":" ++
            (toString r.line ++ (" - " ++ (r.message ++ "\n")))))))))) := by
    simp [renderLine, format_record, renderPart, String.append_assoc]
  refine ⟨hmain, ?_⟩
  intro h1 h2 h3 h4 h5
  rw [hmain, h1, h2, h3, h4, h5]
  congr 1

/-- A standard-library logging record as received by the interception
handler. -/
structure StdRecord where
  name : String
  levelname : String
  levelno : Nat
  funcName : String
  lineno : Nat
  message : String
  deriving DecidableEq, Repr

/-- The level names registered with loguru out of the box. -/
def loguruLevelNames : List String :=
  ["TRACE", "DEBUG", "INFO", "SUCCESS", "WARNING", "ERROR", "CRITICAL"]

/-- A severity as passed to loguru's `log` call: a registered level name,
or the original numeric level when the name is not registered. -/
inductive Severity where
  | byName (s : String)
  | byNumber (n : Nat)
  deriving DecidableEq, Repr

/-- A record as re-emitted into loguru by the interception handler. -/
structure EmittedRecord where
  boundName : String
  severity : Severity
  function : String
  line : Nat
  message : String
  deriving DecidableEq, Repr

/-- Model of `logger.bind(name=...).opt(exception=...).log(level, msg)`:
loguru stamps the record with the function name and line number of the
frame that invokes `log`. The `opt` call in the source sets no `depth`, so
the captured frame is the interception call site itself. -/
def loguru_bound_log (callerFunction : String) (callerLine : Nat)
    (boundName : String) (sev : Severity) (msg : String) : EmittedRecord :=
  ⟨boundName, sev, callerFunction, callerLine, msg⟩

namespace InterceptHandler

/-- Embedding of `InterceptHandler.emit` (src/utils/logger.py, lines
32-44): look up the record's level name among loguru's registered levels,
falling back to the numeric level; bind the original logger name; and
re-emit through loguru's `log`, whose captured frame is the `emit` method
at line 44 of logger.py — not the frame of the original log call. -/
def emit (record : StdRecord) : EmittedRecord :=
  let level : Severity :=
    if loguruLevelNames.contains record.levelname then .byName record.levelname
    else .byNumber record.levelno
  loguru_bound_log "emit" 44 record.name level record.message

end InterceptHandler

/-- Claim C6, counterexample. An intercepted record from logger test with
level INFO, function f and line 10: the re-emitted record's function and
line are those of the interception point, not the original source function
f and line 10, so the original source function and line number are not
preserved. -/
theorem c6_intercept_counterexample :
    (InterceptHandler.emit ⟨"test", "INFO", 20, "f", 10, "hello"⟩).function ≠ "f" ∧
    (InterceptHandler.emit ⟨"test", "INFO", 20, "f", 10, "hello"⟩).line ≠ 10 := by
  decide

/-- Claim C6, amended. For every intercepted standard-logging record, the
interception handler re-emits it through the unified loguru sink preserving
the original logger name, severity and message; a severity name not
registered with loguru falls back to the original numeric level. The
re-emitted record's source function and line are those of the interception
call site (`emit`, logger.py line 44), not those of the original log
call. -/
theorem c6_intercept_amended (record : StdRecord) :
    (InterceptHandler.emit record).boundName = record.name ∧
    (InterceptHandler.emit record).message = record.message ∧
    (InterceptHandler.emit record).severity =
      (if loguruLevelNames.contains record.levelname then .byName record.levelname
       else .byNumber record.levelno) ∧
    (InterceptHandler.emit record).function = "emit" ∧
    (InterceptHandler.emit record).line = 44 :=
  ⟨rfl, rfl, rfl, rfl, rfl⟩

/-- Witness for C5 at a concrete record with level INFO, bound name test,
function f, line 10 and message hello. -/
theorem c5_log_format_witness :
    renderLine ⟨"mod", some "test", "INFO", "2026-01-01 00:00:00.000", "f", 10, "hello"⟩ =
      "2026-01-01 00:00:00.000" ++ " | INFO     | test:f:10 - hello\n" :=
  (c5_log_format ⟨"mod", some "test", "INFO", "2026-01-01 00:00:00.000", "f", 10, "hello"⟩).2
    rfl rfl rfl rfl rfl

/-- The handler kinds the logging setup installs. -/
inductive PyHandler where
  | intercept
  deriving DecidableEq, Repr

/-- The state of one standard-library logger: numeric minimum level,
propagation flag, and installed handlers. -/
structure PyLoggerConfig where
  levelNo : Nat
  propagate : Bool
  handlers : List PyHandler
  deriving DecidableEq, Repr

/-- The standard-library logging registry: logger state by name. -/
def Registry : Type := String → PyLoggerConfig

/-- Point update of the registry at one logger name. -/
def setRegistry (reg : Registry) (n : String) (c : PyLoggerConfig) : Registry :=
  fun m => if m = n then c else reg m

/-- The log severity names the configuration accepts (src/config/app.py
declares the string enum DEBUG, INFO, WARNING, ERROR). -/
inductive LogLevelName where
  | DEBUG
  | INFO
  | WARNING
  | ERROR
  deriving DecidableEq, Repr

/-- Numeric value of a severity name, as in the standard logging module. -/
def levelValue : LogLevelName → Nat
  | .DEBUG => 10
  | .INFO => 20
  | .WARNING => 30
  | .ERROR => 40

/-- The embedded-subsystem loggers routed through the interceptor at the
configured level (src/utils/logger.py, lines 63-76). -/
def uvicornLoggerNames : List String :=
  ["uvicorn", "uvicorn.access", "uvicorn.error", "fastapi", "asyncio"]

/-- The known-chatty HTTP-client loggers forced to WARNING
(src/utils/logger.py, lines 80-96). -/
def noisyLoggerNames : List String :=
  ["httpx", "httpcore", "httpcore.connection", "httpcore.http11",
   "httpcore.http2", "urllib3", "urllib3.connectionpool"]

/-- Embedding of the standard-logging registry effects of `setup_logging`
(src/utils/logger.py, lines 47-96): the root logger gets the single
interception handler at level 0; each uvicorn, fastapi and asyncio logger
gets the interception handler, the configured level and no propagation;
each noisy HTTP-client logger gets its handlers cleared, level WARNING (30)
and no propagation. -/
def setup_logging (level : LogLevelName) (reg : Registry) : Registry :=
  let reg1 := setRegistry reg "root" ⟨0, (reg "root").propagate, [.intercept]⟩
  let reg2 := uvicornLoggerNames.foldl
    (fun r n => setRegistry r n ⟨levelValue level, false, [.intercept]⟩) reg1
  noisyLoggerNames.foldl
    (fun r n => setRegistry r n ⟨30, false, []⟩) reg2

/-- Claim C9. For every configured log level, after `setup_logging` each of
the known-chatty HTTP-client loggers (httpx, httpcore and its sub-loggers,
urllib3 and its connection pool) sits at minimum severity WARNING (numeric
level 30) with propagation to parent loggers disabled, regardless of the
configured level and of the prior registry state. -/
theorem c9_noisy_logger_suppression (level : LogLevelName) (reg : Registry)
    (name : String) (h : name ∈ noisyLoggerNames) :
    (setup_logging level reg name).levelNo = 30 ∧
    (setup_logging level reg name).propagate = false := by
  simp only [noisyLoggerNames, List.mem_cons, List.not_mem_nil, or_false] at h
  rcases h with h | h | h | h | h | h | h <;>
    subst h <;>
    simp [setup_logging, setRegistry, uvicornLoggerNames, noisyLoggerNames]

/-- Witness for C9: with level INFO and a registry in which every logger
starts at level 0 with propagation on, the httpx logger ends at WARNING
with propagation off. -/
theorem c9_noisy_logger_suppression_witness :
    (setup_logging .INFO (fun _ => ⟨0, true, []⟩) "httpx").levelNo = 30 ∧
    (setup_logging .INFO (fun _ => ⟨0, true, []⟩) "httpx").propagate = false :=
  c9_noisy_logger_suppression .INFO (fun _ => ⟨0, true, []⟩) "httpx" (by decide)

/-- The project table of a parsed pyproject.toml, reduced to the field the
code reads. -/
structure TomlProject where
  version? : Option String
  deriving DecidableEq, Repr

/-- The possible outcomes of opening and parsing pyproject.toml: the file
is missing (FileNotFoundError), it fails to parse (TOMLDecodeError), or it
parses with an optional project table. The two failure constructors carry
the exception text interpolated into the warning. -/
inductive PyprojectRead where
  | missing (errMsg : String)
  | parseError (errMsg : String)
  | parsed (project? : Option TomlProject)
  deriving DecidableEq, Repr

/-- Embedding of `get_app_version` (server.py, lines 26-42): on a missing
or unparseable manifest, log a warning and return the placeholder 0.0.0; on
a parsed manifest, return the version under the project table, defaulting
each missing level to 0.0.0 with no log output. -/
def get_app_version : PyprojectRead → List LogEntry × String
  | .missing e =>
    ([⟨"WARNING", "Could not read version from pyproject.toml: " ++ e⟩], "0.0.0")
  | .parseError e =>
    ([⟨"WARNING", "Could not read version from pyproject.toml: " ++ e⟩], "0.0.0")
  | .parsed project? => ([], ((project?.getD ⟨none⟩).version?).getD "0.0.0")

/-- The FastAPI description string of server.py, returned as `message`. -/
def APP_DESCRIPTION : String := "Backend API service for tarot.vn"

/-- Embedding of the root endpoint `root` (server.py, lines 140-146):
status 200 with the service description and the version string read once at
startup. -/
def root (version : String) : HResponse :=
  ⟨200, .json (.obj [("message", .str APP_DESCRIPTION), ("version", .str version)]), []⟩

/-- Claim C7. GET / always returns status 200 with a body carrying the
service description and the version read at startup: the manifest's version
value when it parses, and the placeholder 0.0.0 with a logged warning when
the manifest is missing or unparseable (a non-fatal outcome: the version
function still returns). -/
theorem c7_root_version (r : PyprojectRead) :
    (root (get_app_version r).2).status = 200 ∧
    (root (get_app_version r).2).body =
      .json (.obj [("message", .str APP_DESCRIPTION),
                   ("version", .str (get_app_version r).2)]) ∧
    (∀ v, r = .parsed (some ⟨some v⟩) → (get_app_version r).2 = v) ∧
    (∀ e, r = .missing e ∨ r = .parseError e →
      (get_app_version r).2 = "0.0.0" ∧
      ⟨"WARNING", "Could not read version from pyproject.toml: " ++ e⟩ ∈
        (get_app_version r).1) := by
  refine ⟨rfl, rfl, ?_, ?_⟩
  · intro v hv
    subst hv
    rfl
  · intro e he
    rcases he with he | he <;> subst he <;> simp [get_app_version]

/-- Witness for C7 at concrete inputs: a parsed manifest yields its
version, and a missing manifest yields the placeholder with a warning. -/
theorem c7_root_version_witness :
    (get_app_version (.parsed (some ⟨some "1.2.3"⟩))).2 = "1.2.3" ∧
    ((get_app_version (.missing "file not found")).2 = "0.0.0" ∧
      ⟨"WARNING", "Could not read version from pyproject.toml: file not found"⟩ ∈
        (get_app_version (.missing "file not found")).1) :=
  ⟨(c7_root_version (.parsed (some ⟨some "1.2.3"⟩))).2.2.1 "1.2.3" rfl,
   (c7_root_version (.missing "file not found")).2.2.2 "file not found" (Or.inl rfl)⟩

/-- Claim C10. A manifest that parses but lacks a project table, or whose
project table lacks a version key, also yields the placeholder 0.0.0 — and
in those cases no warning (indeed no log line at all) is emitted. -/
theorem c10_parsed_without_version_no_warning :
    get_app_version (.parsed none) = ([], "0.0.0") ∧
    get_app_version (.parsed (some ⟨none⟩)) = ([], "0.0.0") :=
  ⟨rfl, rfl⟩
